import Mathlib

set_option autoImplicit false

/-!
Shallow embedding of
`metadata-ingestion/src/datahub/ingestion/transformer/add_dataset_tags.py`:
the `AddDatasetTags` transformer, its `transform_aspect` merge step, its
`handle_end_of_stream` emitter, and the `SimpleAddDatasetTags` fixed-list
variant. Methods of base classes that are not part of this file
(`update_if_keep_existing`, `get_result_semantics`, the `TagUrn` parsing
utility and `builder.make_tag_urn`) are modelled from the specification and
marked as such. Mutable state (`self.processed_tags`) is passed explicitly:
each method returns its result together with the facade state after the call,
and a raised exception is an `Except.error` result.
-/

/-- The `TagAssociationClass` schema record: a tag URN plus optional
association context. -/
structure TagAssociationClass where
  tag : String
  context : Option String := none
  deriving DecidableEq

/-- The `GlobalTagsClass` aspect: an ordered list of tag associations. -/
structure GlobalTagsClass where
  tags : List TagAssociationClass
  deriving DecidableEq

/-- The `TagKeyClass` aspect: carries the tag name. -/
structure TagKeyClass where
  name : String
  deriving DecidableEq

/-- The `MetadataChangeProposalWrapper` record, restricted to the two fields
`handle_end_of_stream` sets: the entity URN and the emitted `TagKeyClass`
aspect. -/
structure MetadataChangeProposalWrapper where
  entityUrn : String
  aspect : TagKeyClass
  deriving DecidableEq

/-- The `TransformerSemantics` mode of `TransformerSemanticsConfigModel`. -/
inductive TransformerSemantics where
  | OVERWRITE
  | PATCH
  deriving DecidableEq

/-- Modelled from the spec: the catalog-graph query capability of section 6
(`resolveSemantics`); the graph client is not under `src/`. It maps an entity
URN and the locally computed aspect to the remotely reconciled aspect, which
may be absent. -/
abbrev GraphResolver : Type := String → GlobalTagsClass → Option GlobalTagsClass

/-- The `PipelineContext`, restricted to the one field `transform_aspect`
reads: the optional graph client. -/
structure PipelineContext where
  graph : Option GraphResolver

/-- The `AddDatasetTagsConfig` model: the per-entity tag callback plus the
`replace_existing` flag and semantics mode inherited from
`TransformerSemanticsConfigModel`. The callback may return `none`
(Python `None`). -/
structure AddDatasetTagsConfig where
  get_tags_to_add : String → Option (List TagAssociationClass)
  replace_existing : Bool
  semantics : TransformerSemantics

/-- Modelled from the spec: `update_if_keep_existing` lives in the
`DatasetTagsTransformer` base class, which is not under `src/`. Spec section
4.3, steps 1 and 2: when `replace_existing` is true or the existing aspect is
absent the output starts empty; otherwise it starts as a copy of the existing
labels in their original order. -/
def update_if_keep_existing (config : AddDatasetTagsConfig)
    (in_global_tags_aspect : Option GlobalTagsClass)
    (out_global_tags_aspect : GlobalTagsClass) : GlobalTagsClass :=
  match in_global_tags_aspect with
  | none => out_global_tags_aspect
  | some inAspect =>
    if config.replace_existing then out_global_tags_aspect
    else { out_global_tags_aspect with
             tags := out_global_tags_aspect.tags ++ inAspect.tags }

/-- Modelled from the spec: `get_result_semantics` lives in the base class,
not under `src/`. Spec section 4.3 (the secondary axis) and section 6: under
PATCH semantics the computed aspect is reconciled against the remote copy by
the external catalog-graph collaborator, which must be present; under
OVERWRITE the computed aspect is returned as is. -/
def get_result_semantics (config : AddDatasetTagsConfig)
    (graph : Option GraphResolver) (entity_urn : String)
    (out_global_tags_aspect : GlobalTagsClass) :
    Except String (Option GlobalTagsClass) :=
  match config.semantics with
  | TransformerSemantics.PATCH =>
    match graph with
    | some g => Except.ok (g entity_urn out_global_tags_aspect)
    | none => Except.error "graph required for PATCH semantics"
  | TransformerSemantics.OVERWRITE => Except.ok (some out_global_tags_aspect)

/-- The `AddDatasetTags` transformer facade: its config, pipeline context and
the mutable `processed_tags` accumulator (source lines 33 to 41). -/
structure AddDatasetTags where
  config : AddDatasetTagsConfig
  ctx : PipelineContext
  processed_tags : List TagAssociationClass

/-- The `transform_aspect` method (source lines 48 to 66): copy the existing
tags when keeping them, append the callback result to the output aspect and to
`processed_tags` when the callback result is not `None`, then apply the
semantics resolution step. Returns the result paired with the facade state
after the call. -/
def AddDatasetTags.transform_aspect (t : AddDatasetTags) (entity_urn : String)
    (aspect_name : String) (aspect : Option GlobalTagsClass) :
    Except String (Option GlobalTagsClass) × AddDatasetTags :=
  let in_global_tags_aspect : Option GlobalTagsClass := aspect
  let out_start : GlobalTagsClass := { tags := [] }
  let out_kept := update_if_keep_existing t.config in_global_tags_aspect out_start
  match t.config.get_tags_to_add entity_urn with
  | some tags_to_add =>
    let out_full : GlobalTagsClass := { out_kept with tags := out_kept.tags ++ tags_to_add }
    let t2 : AddDatasetTags := { t with processed_tags := t.processed_tags ++ tags_to_add }
    (get_result_semantics t.config t.ctx.graph entity_urn out_full, t2)
  | none =>
    (get_result_semantics t.config t.ctx.graph entity_urn out_kept, t)

/-- Modelled from the spec: `builder.make_tag_urn` is not under `src/`; spec
section 6 describes it as the utility formatting the canonical label entity
reference from a label identifier. -/
def make_tag_urn (tag : String) : String := "urn:li:tag:" ++ tag

/-- The loop body of `handle_end_of_stream` (source lines 74 to 88),
parameterized over the external URN utility: `get_entity_id urn` stands for
`TagUrn.create_from_string(urn).get_entity_id()`, which is not under `src/`
(spec section 4.1: extraction yields the entity-id components of the URN). The
`assert len(ids) == 1, "Invalid Tag Urn"` in the source is the error branch;
for a singleton component list the component becomes the tag name of the
emitted record, in accumulator order. -/
def handle_end_of_stream_loop (get_entity_id : String → List String) :
    List TagAssociationClass → Except String (List MetadataChangeProposalWrapper)
  | [] => Except.ok []
  | tag_association :: rest =>
    match get_entity_id tag_association.tag with
    | [tag_name] =>
      match handle_end_of_stream_loop get_entity_id rest with
      | Except.ok mcps =>
        Except.ok ({ entityUrn := make_tag_urn tag_name,
                     aspect := { name := tag_name } } :: mcps)
      | Except.error e => Except.error e
    | _ => Except.error "Invalid Tag Urn"

/-- The `handle_end_of_stream` method (source lines 68 to 90): run the loop
over the accumulated `processed_tags`. The accumulator is read, never
written, so the facade state is returned unchanged. -/
def AddDatasetTags.handle_end_of_stream (get_entity_id : String → List String)
    (t : AddDatasetTags) :
    Except String (List MetadataChangeProposalWrapper) × AddDatasetTags :=
  (handle_end_of_stream_loop get_entity_id t.processed_tags, t)

/-- The `SimpleDatasetTagConfig` model: a fixed list of tag URNs plus the
inherited semantics fields. -/
structure SimpleDatasetTagConfig where
  tag_urns : List String
  replace_existing : Bool
  semantics : TransformerSemantics

/-- The `SimpleAddDatasetTags.__init__` constructor (source lines 100 to 108):
build a constant tag association list from `config.tag_urns` and a generic
config whose callback ignores the entity URN, then start with an empty
accumulator. -/
def SimpleAddDatasetTags.init (config : SimpleDatasetTagConfig)
    (ctx : PipelineContext) : AddDatasetTags :=
  let tags := config.tag_urns.map (fun tag => ({ tag := tag } : TagAssociationClass))
  { config := { get_tags_to_add := fun _ => some tags,
                replace_existing := config.replace_existing,
                semantics := config.semantics },
    ctx := ctx,
    processed_tags := [] }

/-! Concrete instances used by witnesses and counterexamples. -/

/-- Tag association with identifier component `a` under the trivial parse. -/
def tagA : TagAssociationClass := { tag := "a" }

/-- Tag association with identifier component `b` under the trivial parse. -/
def tagB : TagAssociationClass := { tag := "b" }

/-- Tag association with identifier component `c` under the trivial parse. -/
def tagC : TagAssociationClass := { tag := "c" }

/-- Tag association whose URN is malformed under `twoIdParse`. -/
def tagBad : TagAssociationClass := { tag := "bad" }

/-- An accumulator whose entries carry identifiers `[a, b, a, c]` in insertion
order. -/
def abacTags : List TagAssociationClass := [tagA, tagB, tagA, tagC]

/-- A URN utility under which every URN has exactly one entity-id component:
itself. -/
def singletonParse : String → List String := fun s => [s]

/-- A URN utility under which the URN `bad` has two entity-id components and
every other URN has one. -/
def twoIdParse : String → List String :=
  fun s => if s = "bad" then ["p", "q"] else [s]

/-- A pipeline context with no graph client. -/
def exCtx : PipelineContext := { graph := none }

/-- A simple config with one tag URN, keeping existing tags. -/
def exSimpleConfig : SimpleDatasetTagConfig :=
  { tag_urns := ["x"], replace_existing := false,
    semantics := TransformerSemantics.OVERWRITE }

/-- A simple config with two tag URNs, replacing existing tags. -/
def exOverwriteConfig : SimpleDatasetTagConfig :=
  { tag_urns := ["x", "y"], replace_existing := true,
    semantics := TransformerSemantics.OVERWRITE }

/-- The facade built from `exSimpleConfig`. -/
def exFacade : AddDatasetTags := SimpleAddDatasetTags.init exSimpleConfig exCtx

/-- The facade built from `exOverwriteConfig`. -/
def exOverwriteFacade : AddDatasetTags :=
  SimpleAddDatasetTags.init exOverwriteConfig exCtx

/-- A facade whose callback returns `None` for every entity and whose
accumulator is nonempty. -/
def exNoneFacade : AddDatasetTags :=
  { config := { get_tags_to_add := fun _ => none, replace_existing := false,
                semantics := TransformerSemantics.OVERWRITE },
    ctx := exCtx,
    processed_tags := [tagA] }

/-! Helper lemmas about the end-of-stream loop. -/

/-- When every accumulated URN has exactly one entity-id component, the loop
succeeds and emits one record per entry, in accumulator order. -/
theorem handle_loop_ok_of_singletons (g : String → List String)
    (pts : List TagAssociationClass)
    (h : ∀ ta ∈ pts, (g ta.tag).length = 1) :
    handle_end_of_stream_loop g pts = Except.ok (pts.map (fun ta =>
      { entityUrn := make_tag_urn ((g ta.tag).headD ""),
        aspect := { name := (g ta.tag).headD "" } })) := by
  induction pts with
  | nil => rfl
  | cons ta rest ih =>
    obtain ⟨name, hname⟩ :=
      List.length_eq_one.mp (h ta (List.mem_cons_self ta rest))
    have hrest := ih (fun x hx => h x (List.mem_cons_of_mem ta hx))
    simp [handle_end_of_stream_loop, hname, hrest]

/-- When some accumulated URN does not have exactly one entity-id component,
the loop fails with the assertion message. -/
theorem handle_loop_error_of_malformed (g : String → List String)
    (pts : List TagAssociationClass)
    (hex : ∃ ta ∈ pts, (g ta.tag).length ≠ 1) :
    handle_end_of_stream_loop g pts = Except.error "Invalid Tag Urn" := by
  induction pts with
  | nil =>
    obtain ⟨ta, hta, _⟩ := hex
    simp at hta
  | cons ta rest ih =>
    obtain ⟨x, hx, hlen⟩ := hex
    rcases List.mem_cons.mp hx with hx1 | hx2
    · subst hx1
      rcases hgt : g x.tag with _ | ⟨n, _ | ⟨m, tl⟩⟩
      · simp [handle_end_of_stream_loop, hgt]
      · rw [hgt] at hlen
        simp at hlen
      · simp [handle_end_of_stream_loop, hgt]
    · rcases hgt : g ta.tag with _ | ⟨n, _ | ⟨m, tl⟩⟩
      · simp [handle_end_of_stream_loop, hgt]
      · have hr := ih ⟨x, hx2, hlen⟩
        simp [handle_end_of_stream_loop, hgt, hr]
      · simp [handle_end_of_stream_loop, hgt]

/-- C1 counterexample: on an accumulator whose entries carry identifiers
`[a, b, a, c]`, `handle_end_of_stream` emits records named `[a, b, a, c]` —
the identifier `a` gets two records, so the output is not deduplicated to the
unique identifiers `[a, b, c]`. -/
theorem handle_end_of_stream_duplicates_counterexample :
    ((handle_end_of_stream_loop singletonParse abacTags).map
        (fun mcps => mcps.map (fun m => m.aspect.name))
      = Except.ok ["a", "b", "a", "c"])
    ∧ ¬ (["a", "b", "a", "c"] : List String).Nodup
    ∧ (["a", "b", "a", "c"] : List String) ≠ ["a", "b", "c"] :=
  ⟨rfl, by decide, by decide⟩

/-- C1 (amended): for every accumulated set whose entries all parse to exactly
one identifier component, `handle_end_of_stream` returns one declaration
record per accumulated entry, named by its identifier, in insertion order —
duplicates included, with no deduplication. -/
theorem handle_end_of_stream_emits_per_entry (g : String → List String)
    (pts : List TagAssociationClass)
    (h : ∀ ta ∈ pts, (g ta.tag).length = 1) :
    (handle_end_of_stream_loop g pts).map
        (fun mcps => mcps.map (fun m => m.aspect.name))
      = Except.ok (pts.map (fun ta => (g ta.tag).headD "")) := by
  rw [handle_loop_ok_of_singletons g pts h]
  simp [Except.map]

/-- Witness for C1 (amended) at the `[a, b, a, c]` accumulator. -/
theorem handle_end_of_stream_emits_per_entry_witness :
    (handle_end_of_stream_loop singletonParse abacTags).map
        (fun mcps => mcps.map (fun m => m.aspect.name))
      = Except.ok (abacTags.map (fun ta => (singletonParse ta.tag).headD "")) :=
  handle_end_of_stream_emits_per_entry singletonParse abacTags
    (fun ta _ => rfl)

/-- C3: during `handle_end_of_stream`, if any accumulated association's URN
parses to an entity-id component list of length other than one, the call
raises the assertion error; if every URN parses to exactly one component, that
component is returned unchanged and becomes the name of the emitted
declaration record. -/
theorem extract_identifier_behavior (g : String → List String)
    (pts : List TagAssociationClass) :
    ((∃ ta ∈ pts, (g ta.tag).length ≠ 1) →
        handle_end_of_stream_loop g pts = Except.error "Invalid Tag Urn")
    ∧ ((∀ ta ∈ pts, (g ta.tag).length = 1) →
        handle_end_of_stream_loop g pts = Except.ok (pts.map (fun ta =>
          { entityUrn := make_tag_urn ((g ta.tag).headD ""),
            aspect := { name := (g ta.tag).headD "" } }))) :=
  ⟨handle_loop_error_of_malformed g pts, handle_loop_ok_of_singletons g pts⟩

/-- Witness for C3 at a singleton accumulator whose URN parses to one
component. -/
theorem extract_identifier_behavior_witness :
    handle_end_of_stream_loop singletonParse [tagB]
      = Except.ok ([tagB].map (fun ta =>
          { entityUrn := make_tag_urn ((singletonParse ta.tag).headD ""),
            aspect := { name := (singletonParse ta.tag).headD "" } })) :=
  (extract_identifier_behavior singletonParse [tagB]).2 (fun ta _ => rfl)

/-- C5: when the accumulator is well-formed entries, then one malformed entry,
then anything, `handle_end_of_stream` aborts with the propagated assertion
error — the result carries no records at all, so no partial batch with the
records of the preceding well-formed tags is delivered. -/
theorem handle_end_of_stream_aborts_on_malformed (g : String → List String)
    (pre post : List TagAssociationClass) (bad : TagAssociationClass)
    (hpre : ∀ ta ∈ pre, (g ta.tag).length = 1)
    (hbad : (g bad.tag).length ≠ 1) :
    handle_end_of_stream_loop g (pre ++ bad :: post)
      = Except.error "Invalid Tag Urn" :=
  handle_loop_error_of_malformed g (pre ++ bad :: post)
    ⟨bad, by simp, hbad⟩

/-- Witness for C5: one well-formed tag before a malformed one. -/
theorem handle_end_of_stream_aborts_on_malformed_witness :
    handle_end_of_stream_loop twoIdParse ([tagA] ++ tagBad :: [tagC])
      = Except.error "Invalid Tag Urn" :=
  handle_end_of_stream_aborts_on_malformed twoIdParse [tagA] [tagC] tagBad
    (by decide) (by decide)

/-- C7: `handle_end_of_stream` on an empty accumulator returns the empty
record list and no error. -/
theorem handle_end_of_stream_empty (g : String → List String)
    (t : AddDatasetTags) (h : t.processed_tags = []) :
    (AddDatasetTags.handle_end_of_stream g t).1 = Except.ok [] := by
  simp [AddDatasetTags.handle_end_of_stream, h, handle_end_of_stream_loop]

/-- Witness for C7 at a freshly constructed facade. -/
theorem handle_end_of_stream_empty_witness :
    (AddDatasetTags.handle_end_of_stream singletonParse exFacade).1
      = Except.ok [] :=
  handle_end_of_stream_empty singletonParse exFacade rfl

/-- C10: `handle_end_of_stream` leaves the `processed_tags` accumulator
unchanged, so a second call with no intervening transforms returns the same
record list as the first. -/
theorem handle_end_of_stream_frame (g : String → List String)
    (t : AddDatasetTags) :
    ((AddDatasetTags.handle_end_of_stream g t).2 = t)
    ∧ ((AddDatasetTags.handle_end_of_stream g
          (AddDatasetTags.handle_end_of_stream g t).2).1
        = (AddDatasetTags.handle_end_of_stream g t).1) :=
  ⟨rfl, rfl⟩

/-- C2: with `replace_existing = false` (and the OVERWRITE remote-semantics
mode, under which the external resolver is not consulted), `transform_aspect`
on an existing aspect `E` and a callback returning `N` yields an aspect whose
tag list is exactly the tags of `E` followed by `N`, both orders preserved and
with no duplicate removal. -/
theorem transform_aspect_patch_appends (t : AddDatasetTags)
    (entity_urn aspect_name : String)
    (E : GlobalTagsClass) (N : List TagAssociationClass)
    (hsem : t.config.semantics = TransformerSemantics.OVERWRITE)
    (hrep : t.config.replace_existing = false)
    (hrule : t.config.get_tags_to_add entity_urn = some N) :
    (t.transform_aspect entity_urn aspect_name (some E)).1
      = Except.ok (some { tags := E.tags ++ N }) := by
  simp [AddDatasetTags.transform_aspect, hrule, update_if_keep_existing, hrep,
        get_result_semantics, hsem]

/-- Witness for C2 with an overlapping identifier in `E` and `N`: the
duplicate is kept. -/
theorem transform_aspect_patch_appends_witness :
    (exFacade.transform_aspect "urn:li:dataset:d" "globalTags"
        (some { tags := [{ tag := "x" }] })).1
      = Except.ok (some { tags :=
          ({ tags := [{ tag := "x" }] } : GlobalTagsClass).tags
            ++ [{ tag := "x" }] }) :=
  transform_aspect_patch_appends exFacade "urn:li:dataset:d" "globalTags"
    { tags := [{ tag := "x" }] } [{ tag := "x" }] rfl rfl rfl

/-- C4: whenever the callback returns a tag list `N` (not `None`), the
`processed_tags` accumulator after `transform_aspect` is exactly the old
accumulator followed by `N`, whatever `replace_existing` is; and in every call
the old accumulator is an initial segment of the new one, so it never
shrinks. -/
theorem transform_aspect_accumulates (t : AddDatasetTags)
    (entity_urn aspect_name : String) (aspect : Option GlobalTagsClass) :
    (∃ s, ((t.transform_aspect entity_urn aspect_name aspect).2).processed_tags
        = t.processed_tags ++ s)
    ∧ (∀ N, t.config.get_tags_to_add entity_urn = some N →
        ((t.transform_aspect entity_urn aspect_name aspect).2).processed_tags
          = t.processed_tags ++ N) := by
  cases hg : t.config.get_tags_to_add entity_urn with
  | none =>
    refine ⟨⟨[], by simp [AddDatasetTags.transform_aspect, hg]⟩, ?_⟩
    intro N hN
    exact absurd hN (by simp)
  | some tags_to_add =>
    refine ⟨⟨tags_to_add, by simp [AddDatasetTags.transform_aspect, hg]⟩, ?_⟩
    intro N hN
    cases hN
    simp [AddDatasetTags.transform_aspect, hg]

/-- Witness for C4 at a facade with `replace_existing = false` and a callback
returning one tag. -/
theorem transform_aspect_accumulates_witness :
    ((exFacade.transform_aspect "e" "n" none).2).processed_tags
      = exFacade.processed_tags ++ [{ tag := "x" }] :=
  (transform_aspect_accumulates exFacade "e" "n" none).2 [{ tag := "x" }] rfl

/-- C6: the rule built by `SimpleAddDatasetTags` returns the same constant
list, built from `config.tag_urns` in order, for every entity URN; and with
`replace_existing = true` (and OVERWRITE remote semantics) `transform_aspect`
on an absent aspect yields an aspect whose tags are exactly that configured
list. -/
theorem simple_fixed_rule_constant (config : SimpleDatasetTagConfig)
    (ctx : PipelineContext) (e1 e2 aspect_name : String)
    (hsem : config.semantics = TransformerSemantics.OVERWRITE)
    (hrep : config.replace_existing = true) :
    ((SimpleAddDatasetTags.init config ctx).config.get_tags_to_add e1
        = some (config.tag_urns.map
            (fun tag => ({ tag := tag } : TagAssociationClass))))
    ∧ (((SimpleAddDatasetTags.init config ctx).transform_aspect
          e2 aspect_name none).1
        = Except.ok (some { tags := config.tag_urns.map (fun tag =>
            ({ tag := tag } : TagAssociationClass)) })) := by
  constructor
  · rfl
  · simp [SimpleAddDatasetTags.init, AddDatasetTags.transform_aspect,
          update_if_keep_existing, get_result_semantics, hsem]

/-- Witness for C6 at a two-tag config. -/
theorem simple_fixed_rule_constant_witness :
    (((SimpleAddDatasetTags.init exOverwriteConfig exCtx).config.get_tags_to_add
          "urn:li:dataset:d1")
        = some (exOverwriteConfig.tag_urns.map
            (fun tag => ({ tag := tag } : TagAssociationClass))))
    ∧ (((SimpleAddDatasetTags.init exOverwriteConfig exCtx).transform_aspect
          "urn:li:dataset:d2" "globalTags" none).1
        = Except.ok (some { tags := exOverwriteConfig.tag_urns.map (fun tag =>
            ({ tag := tag } : TagAssociationClass)) })) :=
  simple_fixed_rule_constant exOverwriteConfig exCtx
    "urn:li:dataset:d1" "urn:li:dataset:d2" "globalTags" rfl rfl

/-- C8: when the callback returns `None` for an entity, `transform_aspect`
does not fail and is observationally the same as with a callback returning the
empty list: the returned aspect is equal, the resulting accumulator is equal,
and the accumulator is left unchanged. -/
theorem transform_aspect_none_rule (t : AddDatasetTags)
    (entity_urn aspect_name : String) (aspect : Option GlobalTagsClass)
    (h : t.config.get_tags_to_add entity_urn = none) :
    ((t.transform_aspect entity_urn aspect_name aspect).1
        = (({ t with config := { t.config with
              get_tags_to_add := fun _ => some [] } } : AddDatasetTags).transform_aspect
            entity_urn aspect_name aspect).1)
    ∧ ((t.transform_aspect entity_urn aspect_name aspect).2.processed_tags
        = (({ t with config := { t.config with
              get_tags_to_add := fun _ => some [] } } : AddDatasetTags).transform_aspect
            entity_urn aspect_name aspect).2.processed_tags)
    ∧ ((t.transform_aspect entity_urn aspect_name aspect).2.processed_tags
        = t.processed_tags) := by
  refine ⟨?_, ?_, ?_⟩ <;>
    simp [AddDatasetTags.transform_aspect, h, update_if_keep_existing,
          get_result_semantics]

/-- Witness for C8 at a facade whose callback always returns `None`. -/
theorem transform_aspect_none_rule_witness :
    ((exNoneFacade.transform_aspect "e" "n" none).1
        = (({ exNoneFacade with config := { exNoneFacade.config with
              get_tags_to_add := fun _ => some [] } } : AddDatasetTags).transform_aspect
            "e" "n" none).1)
    ∧ ((exNoneFacade.transform_aspect "e" "n" none).2.processed_tags
        = (({ exNoneFacade with config := { exNoneFacade.config with
              get_tags_to_add := fun _ => some [] } } : AddDatasetTags).transform_aspect
            "e" "n" none).2.processed_tags)
    ∧ ((exNoneFacade.transform_aspect "e" "n" none).2.processed_tags
        = exNoneFacade.processed_tags) :=
  transform_aspect_none_rule exNoneFacade "e" "n" none rfl

/-- C9: with `replace_existing = true`, calling `transform_aspect` a second
time on the facade state produced by a first call, with the same entity URN,
aspect name and input aspect, returns the same aspect result: the growth of
the accumulator does not influence the output. -/
theorem transform_aspect_idempotent_overwrite (t : AddDatasetTags)
    (entity_urn aspect_name : String) (aspect : Option GlobalTagsClass)
    (hrep : t.config.replace_existing = true) :
    (((t.transform_aspect entity_urn aspect_name aspect).2).transform_aspect
        entity_urn aspect_name aspect).1
      = (t.transform_aspect entity_urn aspect_name aspect).1 := by
  cases hg : t.config.get_tags_to_add entity_urn <;>
    simp [AddDatasetTags.transform_aspect, hg]

/-- Witness for C9 at the overwriting facade. -/
theorem transform_aspect_idempotent_overwrite_witness :
    (((exOverwriteFacade.transform_aspect "e" "n" none).2).transform_aspect
        "e" "n" none).1
      = (exOverwriteFacade.transform_aspect "e" "n" none).1 :=
  transform_aspect_idempotent_overwrite exOverwriteFacade "e" "n" none rfl
